import Mathlib

/-!
Verification of the tax-declaration lifecycle and tax-computation engine of
the backend (app/services/tax_stats.py, app/models/tax_declaration.py,
app/core/tax_indexes.py), as a shallow embedding.

Modelling conventions:
* Mongo documents become Lean structures; absent optional document fields are
  represented with the defaults the Python readers apply via `.get(...)`.
* `datetime` values become integer POSIX timestamps (seconds); `mkUtc`
  converts a calendar instant (as built by Python's `datetime(...)` with
  `timezone.utc`) to such a timestamp via the standard civil-calendar
  day-number algorithm, and `civilFromDays` is its inverse.
* Monetary amounts (Python floats) become rationals.
* Each service method becomes a pure function from its inputs plus the
  relevant collection contents to its outputs plus the updated contents.
-/

set_option maxRecDepth 100000

namespace TaxStats

/-! ## Calendar arithmetic -/

/-- Day number of the civil date `y-m-d` relative to 1970-01-01
(Howard Hinnant's `days_from_civil` algorithm, used here to give
`datetime(..., tzinfo=timezone.utc)` values a faithful integer timestamp). -/
def daysFromCivil (y m d : Int) : Int :=
  let y2 : Int := if m ≤ 2 then y - 1 else y
  let era : Int := Int.fdiv y2 400
  let yoe : Int := y2 - era * 400
  let mp : Int := if m > 2 then m - 3 else m + 9
  let doy : Int := Int.fdiv (153 * mp + 2) 5 + d - 1
  let doe : Int := yoe * 365 + Int.fdiv yoe 4 - Int.fdiv yoe 100 + doy
  era * 146097 + doe - 719468

/-- Inverse of `daysFromCivil`: the civil date `(year, month, day)` of a day
number relative to 1970-01-01. -/
def civilFromDays (z0 : Int) : Int × Int × Int :=
  let z := z0 + 719468
  let era : Int := Int.fdiv z 146097
  let doe : Int := z - era * 146097
  let yoe : Int :=
    Int.fdiv (doe - Int.fdiv doe 1460 + Int.fdiv doe 36524 - Int.fdiv doe 146096) 365
  let y : Int := yoe + era * 400
  let doy : Int := doe - (365 * yoe + Int.fdiv yoe 4 - Int.fdiv yoe 100)
  let mp : Int := Int.fdiv (5 * doy + 2) 153
  let d : Int := doy - Int.fdiv (153 * mp + 2) 5 + 1
  let m : Int := if mp < 10 then mp + 3 else mp - 9
  (if m ≤ 2 then y + 1 else y, m, d)

/-- POSIX timestamp (in seconds) of `datetime(y, m, d, hh, mm, ss, tzinfo=utc)`. -/
def mkUtc (y m d hh mm ss : Int) : Int :=
  daysFromCivil y m d * 86400 + hh * 3600 + mm * 60 + ss

/-- Calendar year of a timestamp (the `.year` of the corresponding UTC datetime). -/
def tsYear (t : Int) : Int := (civilFromDays (Int.fdiv t 86400)).1

/-- Calendar month of a timestamp (the `.month` of the corresponding UTC datetime). -/
def tsMonth (t : Int) : Int := (civilFromDays (Int.fdiv t 86400)).2.1

/-! ## Data model (app/models/tax_declaration.py, app/schemas/tax_stats.py) -/

/-- `DeclarationStatus` from app/models/tax_declaration.py. -/
inductive Status where
  | pending
  | submitted
  | overdue
  | awaiting_payment
  | payment_received
  | in_progress
  | filed_by_admin
  | rejected
deriving DecidableEq, Repr

/-- The `payment_status` string field (unpaid | paid | refunded). -/
inductive PaymentStatus where
  | unpaid
  | paid
  | refunded
deriving DecidableEq, Repr

/-- `ThresholdStatus` from app/schemas/tax_stats.py. -/
inductive ThresholdStatus where
  | on_track
  | approaching_limit
  | near_limit
  | exceeded
deriving DecidableEq, Repr

/-- `InsightType` from app/schemas/tax_stats.py. -/
inductive InsightType where
  | declaration_reminder
  | threshold_warning
  | income_spike
  | income_drop
  | optimization_tip
  | compliance_alert
deriving DecidableEq, Repr

/-- `InsightSeverity` from app/schemas/tax_stats.py. -/
inductive InsightSeverity where
  | info
  | medium
  | high
  | critical
deriving DecidableEq, Repr

/-- An income-ledger record (`transactions` collection), with the fields the
tax-stats service reads: owner, date, amount in GEL, and its id (the string
form of the ObjectId, as produced by the `$toString` aggregation). -/
structure Transaction where
  user_id : String
  transaction_date : Int
  amount_gel : ℚ
  id : String
deriving DecidableEq, Repr

/-- A `tax_declarations` document.  Optional document fields that the code
reads through `.get(key, default)` are stored with that default. -/
structure Declaration where
  user_id : String
  year : Int
  month : Int
  income_gel : ℚ
  tax_due_gel : ℚ
  transaction_count : Nat
  transaction_ids : List String
  status : Status
  filing_deadline : Int
  submitted_date : Option Int
  payment_status : PaymentStatus
  payment_amount : ℚ
  payment_date : Option Int
  mock_payment_id : Option String
  filing_method : String
  filed_by_admin_id : Option String
  filed_by_admin_at : Option Int
  admin_notes : String
  requires_correction : Bool
  correction_notes : String
  auto_generated_at : Int
  created_at : Int
  updated_at : Int
deriving DecidableEq, Repr

/-- Constants of `TaxStatsService`. -/
def TAX_RATE : ℚ := 1 / 100

def ANNUAL_THRESHOLD : ℚ := 500000

def FILING_DAY : Int := 15

/-! ## Declaration Generator (`_get_or_create_declaration`) -/

/-- The ledger records matched by the month aggregation pipeline of
`_get_or_create_declaration`: the user's transactions dated in
`[datetime(y, m, 1), datetime(y, m+1, 1))` (January of `y+1` after December). -/
def monthTransactions (ledger : List Transaction) (uid : String) (y m : Int) :
    List Transaction :=
  let start := mkUtc y m 1 0 0 0
  let stop := if m = 12 then mkUtc (y + 1) 1 1 0 0 0 else mkUtc y (m + 1) 1 0 0 0
  ledger.filter fun t =>
    t.user_id == uid && decide (start ≤ t.transaction_date) &&
      decide (t.transaction_date < stop)

/-- The creation path of `_get_or_create_declaration` (no existing record):
aggregate the month's ledger records, derive tax and deadline, pick the
initial status, and build the document to insert. -/
def createDeclaration (ledger : List Transaction) (uid : String) (y m : Int)
    (now : Int) : Declaration :=
  let sel := monthTransactions ledger uid y m
  let income : ℚ := (sel.map (·.amount_gel)).sum
  let count := sel.length
  let ids := sel.map (·.id)
  let deadline_year := if m = 12 then y + 1 else y
  let deadline_month := if m = 12 then (1 : Int) else m + 1
  let deadline := mkUtc deadline_year deadline_month FILING_DAY 23 59 59
  let status :=
    if deadline < now then
      if income > 0 then Status.overdue else Status.pending
    else Status.pending
  { user_id := uid
    year := y
    month := m
    income_gel := income
    tax_due_gel := income * TAX_RATE
    transaction_count := count
    transaction_ids := ids
    status := status
    filing_deadline := deadline
    submitted_date := none
    payment_status := PaymentStatus.unpaid
    payment_amount := 50
    payment_date := none
    mock_payment_id := none
    filing_method := "self_service"
    filed_by_admin_id := none
    filed_by_admin_at := none
    admin_notes := ""
    requires_correction := false
    correction_notes := ""
    auto_generated_at := now
    created_at := now
    updated_at := now }

/-- The existing-record path of `_get_or_create_declaration`: a `pending`
record whose deadline has passed is reclassified in place to `overdue`
(the `$set` touches only the `status` field); anything else is returned
as stored. -/
def refreshDeclaration (d : Declaration) (now : Int) : Declaration :=
  if d.status = Status.pending ∧ d.filing_deadline < now then
    { d with status := Status.overdue }
  else d

/-- `find_one({"user_id": uid, "year": y, "month": m})` over the collection. -/
def findDecl (store : List Declaration) (uid : String) (y m : Int) :
    Option Declaration :=
  store.find? fun d => d.user_id == uid && d.year == y && d.month == m

/-- Replace the documents matching the `(user_id, year, month)` key by `d2`
(the collection's unique index guarantees at most one match). -/
def replaceDecl (store : List Declaration) (uid : String) (y m : Int)
    (d2 : Declaration) : List Declaration :=
  store.map fun d =>
    if d.user_id == uid && d.year == y && d.month == m then d2 else d

/-- `_get_or_create_declaration`: returns the declaration handed to the caller
together with the collection contents after the call. -/
def getOrCreateDeclaration (store : List Declaration) (ledger : List Transaction)
    (uid : String) (y m : Int) (now : Int) : Declaration × List Declaration :=
  match findDecl store uid y m with
  | some d =>
      let d2 := refreshDeclaration d now
      (d2, replaceDecl store uid y m d2)
  | none =>
      let d := createDeclaration ledger uid y m now
      (d, store ++ [d])

/-! ## Tax overview (`get_tax_overview`) -/

/-- Year-to-date income: the aggregation over the user's transactions dated in
`[datetime(y, 1, 1), datetime(y+1, 1, 1))` summing `amount_gel`. -/
def ytdIncome (ledger : List Transaction) (uid : String) (y : Int) : ℚ :=
  ((ledger.filter fun t =>
      t.user_id == uid && decide (mkUtc y 1 1 0 0 0 ≤ t.transaction_date) &&
        decide (t.transaction_date < mkUtc (y + 1) 1 1 0 0 0)).map
    (·.amount_gel)).sum

/-- The threshold-band selection of `get_tax_overview` (lines 86-97):
`threshold_percentage = total_income / ANNUAL_THRESHOLD * 100` and the
`< 75 / < 90 / < 100 / else` if-chain. -/
def thresholdStatusOf (total_income : ℚ) : ThresholdStatus :=
  let pct := total_income / ANNUAL_THRESHOLD * 100
  if pct < 75 then ThresholdStatus.on_track
  else if pct < 90 then ThresholdStatus.approaching_limit
  else if pct < 100 then ThresholdStatus.near_limit
  else ThresholdStatus.exceeded

/-- The `status` field of the overview returned by `get_tax_overview`. -/
def overviewStatus (ledger : List Transaction) (uid : String) (y : Int) :
    ThresholdStatus :=
  thresholdStatusOf (ytdIncome ledger uid y)

/-! ## Rounding (Python's `round(x, 2)`) -/

/-- Round-half-to-even to an integer, as Python's builtin `round` behaves on
exactly representable values. -/
def roundHalfEven (x : ℚ) : Int :=
  let f := ⌊x⌋
  let frac := x - f
  if frac < 1 / 2 then f
  else if 1 / 2 < frac then f + 1
  else if f % 2 = 0 then f else f + 1

/-- Python's `round(x, 2)`. -/
def round2 (x : ℚ) : ℚ := (roundHalfEven (x * 100) : ℚ) / 100

/-! ## Year-over-year comparison (`get_tax_comparison`) -/

/-- `YearlyTaxSummary` from app/schemas/tax_stats.py. -/
structure YearlyTaxSummary where
  year : Int
  total_income_gel : ℚ
  total_tax_gel : ℚ
  avg_monthly_income_gel : ℚ
  months_with_income : Nat
  growth_vs_previous : Option ℚ
deriving DecidableEq, Repr

/-- The declarations matched by `find({"user_id": uid, "year": y})`. -/
def yearDeclarations (store : List Declaration) (uid : String) (y : Int) :
    List Declaration :=
  store.filter fun d => d.user_id == uid && d.year == y

/-- The per-year loop body of `get_tax_comparison`, threading
`previous_income` (the previously processed year's unrounded income total)
and the running unrounded `total_tax_all_years`. -/
def comparisonLoop (store : List Declaration) (uid : String) :
    List Int → Option ℚ → List YearlyTaxSummary × ℚ
  | [], _ => ([], 0)
  | y :: rest, prev =>
      let decls := yearDeclarations store uid y
      let total_income : ℚ := (decls.map (·.income_gel)).sum
      let total_tax : ℚ := (decls.map (·.tax_due_gel)).sum
      let mwi := (decls.filter fun d => decide (d.income_gel > 0)).length
      let avg : ℚ := if mwi > 0 then total_income / mwi else 0
      let growth : Option ℚ :=
        match prev with
        | some p => if p > 0 then some ((total_income - p) / p * 100) else none
        | none => none
      let summary : YearlyTaxSummary :=
        { year := y
          total_income_gel := round2 total_income
          total_tax_gel := round2 total_tax
          avg_monthly_income_gel := round2 avg
          months_with_income := mwi
          growth_vs_previous := growth.map round2 }
      let (restSummaries, restTax) := comparisonLoop store uid rest (some total_income)
      (summary :: restSummaries, total_tax + restTax)

/-- `get_tax_comparison`: caps the requested years at 5, sorts them newest
first, and produces the yearly summaries plus the rounded all-years tax
total. -/
def getTaxComparison (store : List Declaration) (uid : String)
    (years : List Int) : List YearlyTaxSummary × ℚ :=
  let ys := (years.take 5).insertionSort fun a b => b ≤ a
  let (summaries, taxAll) := comparisonLoop store uid ys none
  (summaries, round2 taxAll)

/-! ## Mark self-submitted (`mark_declaration_submitted`) -/

/-- `mark_declaration_submitted`: an unconditional `update_one` on the
`(user_id, year, month)` key setting `status`, `submitted_date` and
`updated_at`; the result is `modified_count > 0`, i.e. whether a matching
document existed and was actually changed by the `$set`. -/
def markDeclarationSubmitted (store : List Declaration) (uid : String)
    (y m : Int) (submitted_date : Option Int) (now : Int) :
    Bool × List Declaration :=
  let sd := submitted_date.getD now
  match findDecl store uid y m with
  | none => (false, store)
  | some d =>
      let d2 := { d with
        status := Status.submitted
        submitted_date := some sd
        updated_at := now }
      (decide (d2 ≠ d), replaceDecl store uid y m d2)

/-! ## Lifecycle transitions (payment & admin filing) -/

/-- Caller-visible failures of the lifecycle methods (`ValueError`s in the
source, with the invalid-transition messages carrying the current status). -/
inductive TaxError where
  | notFound
  | alreadyPaid
  | invalidTransition (current : Status)
deriving DecidableEq, Repr

/-- `request_filing_service` on an existing declaration.  The method first
runs the record through `_get_or_create_declaration` (which may persist the
pending-to-overdue reclassification), then guards on `payment_status` and on
the (refreshed) status, and finally applies the awaiting-payment update.
Returns the stored record after the call and the outcome. -/
def requestFilingService (d : Declaration) (now : Int) (pid : String) :
    Declaration × Except TaxError Unit :=
  let d1 := refreshDeclaration d now
  if d1.payment_status = PaymentStatus.paid then
    (d1, Except.error TaxError.alreadyPaid)
  else if d1.status ≠ Status.pending ∧ d1.status ≠ Status.overdue then
    (d1, Except.error (TaxError.invalidTransition d1.status))
  else
    ({ d1 with
        status := Status.awaiting_payment
        payment_status := PaymentStatus.unpaid
        payment_amount := 50
        filing_method := "admin_filed"
        mock_payment_id := some pid
        updated_at := now },
      Except.ok ())

/-- `process_mock_payment` on an existing declaration: only allowed from
`awaiting_payment`. -/
def processMockPayment (d : Declaration) (now : Int) :
    Declaration × Except TaxError Unit :=
  if d.status ≠ Status.awaiting_payment then
    (d, Except.error (TaxError.invalidTransition d.status))
  else
    ({ d with
        status := Status.payment_received
        payment_status := PaymentStatus.paid
        payment_date := some now
        updated_at := now },
      Except.ok ())

/-- `admin_start_filing`: only allowed from `payment_received`. -/
def adminStartFiling (d : Declaration) (adminId : String) (now : Int) :
    Declaration × Except TaxError Unit :=
  if d.status ≠ Status.payment_received then
    (d, Except.error (TaxError.invalidTransition d.status))
  else
    ({ d with
        status := Status.in_progress
        filed_by_admin_id := some adminId
        updated_at := now },
      Except.ok ())

/-- `admin_complete_filing`: only allowed from `in_progress`.  The optional
notes and confirmation number (empty string standing for Python's falsy
`None`) feed the `admin_notes` update exactly as in the source. -/
def adminCompleteFiling (d : Declaration) (confirmationNumber adminNotes : String)
    (now : Int) : Declaration × Except TaxError Unit :=
  if d.status ≠ Status.in_progress then
    (d, Except.error (TaxError.invalidTransition d.status))
  else
    let notes :=
      if confirmationNumber ≠ "" then
        (adminNotes ++ "\n" ++ "RS.ge Confirmation: " ++ confirmationNumber).trim
      else if adminNotes ≠ "" then adminNotes
      else d.admin_notes
    ({ d with
        status := Status.filed_by_admin
        filed_by_admin_at := some now
        submitted_date := some now
        updated_at := now
        admin_notes := notes },
      Except.ok ())

/-- `admin_reject_declaration`: only allowed from `payment_received` or
`in_progress`; sets `requires_correction` and the correction notes. -/
def adminRejectDeclaration (d : Declaration) (correctionNotes adminNotes : String)
    (now : Int) : Declaration × Except TaxError Unit :=
  if d.status ≠ Status.payment_received ∧ d.status ≠ Status.in_progress then
    (d, Except.error (TaxError.invalidTransition d.status))
  else
    ({ d with
        status := Status.rejected
        requires_correction := true
        correction_notes := correctionNotes
        updated_at := now
        admin_notes := if adminNotes ≠ "" then adminNotes else d.admin_notes },
      Except.ok ())

/-! ## Insight engine (`get_tax_insights`)

Each generated `TaxInsight` is modelled by its type, severity,
`action_required` flag, and - for deadline reminders, which embed the
declaration's year and month in their `action_url` - the `(year, month)` key
of the declaration it refers to.  The formatted title/message strings are
elided. -/

structure Insight where
  itype : InsightType
  severity : InsightSeverity
  ref : Option (Int × Int)
  action_required : Bool
deriving DecidableEq, Repr

/-- The Mongo query of the deadline-reminder loop: the user's `pending`
declarations with `filing_deadline >= now`. -/
def pendingQuery (uid : String) (now : Int) (e : Declaration) : Bool :=
  e.user_id == uid && e.status == Status.pending &&
    decide (now ≤ e.filing_deadline)

/-- The body of the deadline-reminder loop: one reminder whose severity
follows the `days_until <= 1 / <= 3 / <= 7` chain, `none` (`continue`) for
further-out declarations.  `days_until` is the `.days` of the Python
timedelta, i.e. the floored quotient of the second difference by 86400. -/
def reminderOf (now : Int) (e : Declaration) : Option Insight :=
  if Int.fdiv (e.filing_deadline - now) 86400 ≤ 1 then
    some ⟨InsightType.declaration_reminder, InsightSeverity.critical,
      some (e.year, e.month), true⟩
  else if Int.fdiv (e.filing_deadline - now) 86400 ≤ 3 then
    some ⟨InsightType.declaration_reminder, InsightSeverity.high,
      some (e.year, e.month), true⟩
  else if Int.fdiv (e.filing_deadline - now) 86400 ≤ 7 then
    some ⟨InsightType.declaration_reminder, InsightSeverity.medium,
      some (e.year, e.month), true⟩
  else none

/-- Upcoming-deadline reminders: the pending-query results sorted by deadline
ascending, each run through the severity chain. -/
def upcomingDeadlineInsights (store : List Declaration) (uid : String)
    (now : Int) : List Insight :=
  ((store.filter (pendingQuery uid now)).insertionSort
    fun a b => a.filing_deadline ≤ b.filing_deadline).filterMap (reminderOf now)

/-- The aggregated overdue-compliance alert: one `critical` insight when the
user has any `pending` declaration with `filing_deadline < now`. -/
def overdueComplianceInsights (store : List Declaration) (uid : String)
    (now : Int) : List Insight :=
  let overdue := store.filter fun d =>
    d.user_id == uid && d.status == Status.pending &&
      decide (d.filing_deadline < now)
  if overdue.isEmpty then []
  else [⟨InsightType.compliance_alert, InsightSeverity.critical, none, true⟩]

/-- Threshold-band warnings, driven by the overview's rounded
`threshold_percentage_used` with the `>= 95 / >= 85 / >= 75` chain. -/
def thresholdInsights (ledger : List Transaction) (uid : String) (y : Int) :
    List Insight :=
  let pct := round2 (ytdIncome ledger uid y / ANNUAL_THRESHOLD * 100)
  if pct ≥ 95 then
    [⟨InsightType.threshold_warning, InsightSeverity.critical, none, false⟩]
  else if pct ≥ 85 then
    [⟨InsightType.threshold_warning, InsightSeverity.high, none, false⟩]
  else if pct ≥ 75 then
    [⟨InsightType.threshold_warning, InsightSeverity.medium, none, false⟩]
  else []

/-- Income spike/drop insights: compare last calendar month's declaration
income to the average over the strictly earlier months of the current year
(the `$avg` aggregation, which yields a row only when some declaration
matches); `info` alerts above +30% or below -30% deviation. -/
def incomeChangeInsights (store : List Declaration) (uid : String) (now : Int) :
    List Insight :=
  let cy := tsYear now
  let cm := tsMonth now
  if cm > 1 then
    let lastMonth := cm - 1
    match store.find? fun d =>
        d.user_id == uid && d.year == cy && d.month == lastMonth with
    | some lm =>
      if lm.income_gel > 0 then
        let prior := store.filter fun d =>
          d.user_id == uid && d.year == cy && decide (d.month < lastMonth)
        if prior.length > 0 then
          let avg : ℚ := ((prior.map (·.income_gel)).sum) / prior.length
          if avg > 0 then
            let change := (lm.income_gel - avg) / avg * 100
            if change > 30 then
              [⟨InsightType.income_spike, InsightSeverity.info, none, false⟩]
            else if change < -30 then
              [⟨InsightType.income_drop, InsightSeverity.info, none, false⟩]
            else []
          else []
        else []
      else []
    | none => []
  else []

/-- The "room for growth" tip: emitted when the overview's rounded
`threshold_remaining_gel` exceeds 100000. -/
def optimizationTipInsights (ledger : List Transaction) (uid : String)
    (y : Int) : List Insight :=
  let remaining := round2 (max 0 (ANNUAL_THRESHOLD - ytdIncome ledger uid y))
  if remaining > 100000 then
    [⟨InsightType.optimization_tip, InsightSeverity.info, none, false⟩]
  else []

/-- The `severity_order` ranking used for the final sort. -/
def severityOrder : InsightSeverity → Nat
  | InsightSeverity.critical => 0
  | InsightSeverity.high => 1
  | InsightSeverity.medium => 2
  | InsightSeverity.info => 3

/-- `get_tax_insights`: the five rule families evaluated in source order,
then stably sorted by severity rank. -/
def getTaxInsights (store : List Declaration) (ledger : List Transaction)
    (uid : String) (now : Int) : List Insight :=
  let cy := tsYear now
  (upcomingDeadlineInsights store uid now ++
      overdueComplianceInsights store uid now ++
      thresholdInsights ledger uid cy ++
      incomeChangeInsights store uid now ++
      optimizationTipInsights ledger uid cy).insertionSort
    fun a b => severityOrder a.severity ≤ severityOrder b.severity

/-! ## The first-generation race (`insert_one` under the unique index)

`app/core/tax_indexes.py` installs a unique index on
`(user_id, year, month)`; an `insert_one` for an already-present key fails
with a duplicate-key error.  `_get_or_create_declaration` performs its
`find_one` and its `insert_one` as two separate store operations with no
exception handling around the insert, so in a race between two first-time
callers the only interesting schedule is the one where both `find_one`s
complete before either insert. -/

/-- Outcome of one `_get_or_create_declaration` call in the race model. -/
inductive CallOutcome where
  | returned (d : Declaration)
  | raisedDuplicateKey
deriving DecidableEq, Repr

/-- `insert_one` against the unique `(user_id, year, month)` index. -/
def insertOne (store : List Declaration) (d : Declaration) :
    Except Unit (List Declaration) :=
  if store.any fun e =>
      e.user_id == d.user_id && e.year == d.year && e.month == d.month then
    Except.error ()
  else Except.ok (store ++ [d])

/-- Two concurrent first-time `_get_or_create_declaration` calls for the same
`(uid, y, m)` key on a store with no document for that key, interleaved as
A.find, B.find, A.insert, B.insert.  Both finds miss, both callers build and
attempt to insert their document; the source has no handler around
`insert_one`, so a failed insert propagates as the caller's outcome. -/
def raceFirstTimeCalls (ledger : List Transaction) (uid : String) (y m : Int)
    (nowA nowB : Int) : CallOutcome × CallOutcome × List Declaration :=
  let store0 : List Declaration := []
  let dA := createDeclaration ledger uid y m nowA
  let dB := createDeclaration ledger uid y m nowB
  match insertOne store0 dA with
  | Except.error _ => (CallOutcome.raisedDuplicateKey, CallOutcome.raisedDuplicateKey, store0)
  | Except.ok store1 =>
    match insertOne store1 dB with
    | Except.error _ => (CallOutcome.returned dA, CallOutcome.raisedDuplicateKey, store1)
    | Except.ok store2 => (CallOutcome.returned dA, CallOutcome.returned dB, store2)

/-! ## Admin cross-user listing (`get_all_declarations`) -/

/-- The optional filters of `get_all_declarations` (a `None` field imposes no
constraint, like the falsy checks building the Mongo query). -/
structure DeclFilter where
  status : Option Status
  user_id : Option String
  year : Option Int
  month : Option Int
deriving DecidableEq, Repr

/-- Whether a declaration matches the filter query. -/
def matchesFilter (f : DeclFilter) (d : Declaration) : Bool :=
  (match f.status with | some s => d.status == s | none => true) &&
  (match f.user_id with | some u => d.user_id == u | none => true) &&
  (match f.year with | some y => d.year == y | none => true) &&
  (match f.month with | some m => d.month == m | none => true)

/-- `get_all_declarations`: `total_count` over the whole filtered set, the
page after sorting by `filing_deadline` descending, skipping and limiting,
and `total_revenue` accumulated inside the page loop over the paid
declarations of that page.  Returns `(total_count, page, total_revenue)`. -/
def getAllDeclarations (store : List Declaration) (f : DeclFilter)
    (limit skip : Nat) : Nat × List Declaration × ℚ :=
  let filtered := store.filter (matchesFilter f)
  let total_count := filtered.length
  let page := (((filtered.insertionSort
    fun a b => b.filing_deadline ≤ a.filing_deadline).drop skip).take limit)
  let total_revenue : ℚ :=
    ((page.filter fun d => d.payment_status == PaymentStatus.paid).map
      (·.payment_amount)).sum
  (total_count, page, total_revenue)

/-! ## Admin dashboard statistics (`get_real_admin_stats`) -/

/-- The declarations filed by admin in the current month:
`status == filed_by_admin` with `filed_by_admin_at` in
`[month_start, next_month)`. -/
def filedThisMonth (store : List Declaration) (monthStart nextMonth : Int) :
    List Declaration :=
  store.filter fun d =>
    d.status == Status.filed_by_admin &&
      (match d.filed_by_admin_at with
       | some t => decide (monthStart ≤ t) && decide (t < nextMonth)
       | none => false)

/-- The `avg_filing_time` local of `get_real_admin_stats`: the mean over
`filing_times`, the hour differences `filed_by_admin_at - payment_date` of
the declarations filed this month that carry both timestamps; `none` when
the list is empty. -/
def avgFilingTimeHours (store : List Declaration) (monthStart nextMonth : Int) :
    Option ℚ :=
  let times := (filedThisMonth store monthStart nextMonth).filterMap fun d =>
    match d.payment_date, d.filed_by_admin_at with
    | some p, some fa => some (((fa - p : Int) : ℚ) / 3600)
    | _, _ => none
  if times.length = 0 then none else some (times.sum / times.length)

/-- The `average_filing_time_hours` field the method returns:
`round(avg_filing_time, 2) if avg_filing_time else None`, whose truthiness
test also maps a mean of exactly `0.0` to `None`. -/
def reportedAvgFilingTime (store : List Declaration)
    (monthStart nextMonth : Int) : Option ℚ :=
  match avgFilingTimeHours store monthStart nextMonth with
  | some v => if v ≠ 0 then some (round2 v) else none
  | none => none

/-! ## Concrete fixtures used by witnesses and counterexamples -/

/-- A baseline declaration document: October 2025, no income, pending,
deadline 2025-11-15T23:59:59Z, all payment/admin fields at their defaults. -/
def baseDecl : Declaration :=
  { user_id := "u"
    year := 2025
    month := 10
    income_gel := 0
    tax_due_gel := 0
    transaction_count := 0
    transaction_ids := []
    status := Status.pending
    filing_deadline := mkUtc 2025 11 15 23 59 59
    submitted_date := none
    payment_status := PaymentStatus.unpaid
    payment_amount := 50
    payment_date := none
    mock_payment_id := none
    filing_method := "self_service"
    filed_by_admin_id := none
    filed_by_admin_at := none
    admin_notes := ""
    requires_correction := false
    correction_notes := ""
    auto_generated_at := 0
    created_at := 0
    updated_at := 0 }

/-- A 2024 declaration totalling 100 GEL of income for user `u`. -/
def decl2024 : Declaration :=
  { baseDecl with year := 2024, month := 1, income_gel := 100, tax_due_gel := 1 }

/-- A 2025 declaration totalling 150 GEL of income for user `u`. -/
def decl2025 : Declaration :=
  { baseDecl with year := 2025, month := 1, income_gel := 150, tax_due_gel := 3 / 2 }

/-- A declaration the admin has already filed (terminal status, paid). -/
def declFiledPaid : Declaration :=
  { baseDecl with
    status := Status.filed_by_admin
    payment_status := PaymentStatus.paid }

/-- A declaration in the terminal `submitted` status. -/
def declSubmitted : Declaration :=
  { baseDecl with status := Status.submitted }

/-- A declaration filed by admin at exactly its payment instant
(2025-10-03T12:00:00Z), giving a filing time of exactly zero hours. -/
def declZeroFilingTime : Declaration :=
  { baseDecl with
    status := Status.filed_by_admin
    payment_date := some (mkUtc 2025 10 3 12 0 0)
    filed_by_admin_at := some (mkUtc 2025 10 3 12 0 0) }

/-- Two paid declarations (January and February 2025), 50 GEL fee each. -/
def declPaid1 : Declaration :=
  { baseDecl with month := 1, payment_status := PaymentStatus.paid }

def declPaid2 : Declaration :=
  { baseDecl with month := 2, payment_status := PaymentStatus.paid }

/-- The unconstrained admin-listing filter (all Mongo query fields absent). -/
def noFilter : DeclFilter := ⟨none, none, none, none⟩

/-- A 22000 GEL transaction of user `u` dated 2025-10-05T10:00:00Z. -/
def txOct : Transaction :=
  { user_id := "u"
    transaction_date := mkUtc 2025 10 5 10 0 0
    amount_gel := 22000
    id := "t1" }

/-- A 999 GEL transaction of user `u` dated 2025-09-05T10:00:00Z (outside
October). -/
def txSep : Transaction :=
  { user_id := "u"
    transaction_date := mkUtc 2025 9 5 10 0 0
    amount_gel := 999
    id := "t2" }

/-- The reference instant 2025-11-05T00:00:00Z used by insight witnesses. -/
def nowNov5 : Int := mkUtc 2025 11 5 0 0 0

/-- A pending declaration due exactly 1 day after `nowNov5`. -/
def declDueIn1 : Declaration :=
  { baseDecl with filing_deadline := nowNov5 + 1 * 86400 }

/-- A pending declaration due 10 days after `nowNov5`. -/
def declDueIn10 : Declaration :=
  { baseDecl with filing_deadline := nowNov5 + 10 * 86400 }

/-! ## C5: threshold bands of the overview -/

/-- C5: the overview's threshold band is `on_track` for percentages below 75,
`approaching_limit` on `[75, 90)`, `near_limit` on `[90, 100)` and `exceeded`
at or above 100; with the 500000 threshold, the boundary incomes 374999,
375000, 500000 and 500001 land in `on_track`, `approaching_limit`,
`exceeded` and `exceeded` respectively. -/
theorem C5_threshold_bands (income : ℚ) :
    (thresholdStatusOf income = ThresholdStatus.on_track ↔
      income / ANNUAL_THRESHOLD * 100 < 75) ∧
    (thresholdStatusOf income = ThresholdStatus.approaching_limit ↔
      (75 ≤ income / ANNUAL_THRESHOLD * 100 ∧ income / ANNUAL_THRESHOLD * 100 < 90)) ∧
    (thresholdStatusOf income = ThresholdStatus.near_limit ↔
      (90 ≤ income / ANNUAL_THRESHOLD * 100 ∧ income / ANNUAL_THRESHOLD * 100 < 100)) ∧
    (thresholdStatusOf income = ThresholdStatus.exceeded ↔
      100 ≤ income / ANNUAL_THRESHOLD * 100) ∧
    thresholdStatusOf 374999 = ThresholdStatus.on_track ∧
    thresholdStatusOf 375000 = ThresholdStatus.approaching_limit ∧
    thresholdStatusOf 500000 = ThresholdStatus.exceeded ∧
    thresholdStatusOf 500001 = ThresholdStatus.exceeded := by
  have he : ∀ x : ℚ, thresholdStatusOf x =
      if x / ANNUAL_THRESHOLD * 100 < 75 then ThresholdStatus.on_track
      else if x / ANNUAL_THRESHOLD * 100 < 90 then ThresholdStatus.approaching_limit
      else if x / ANNUAL_THRESHOLD * 100 < 100 then ThresholdStatus.near_limit
      else ThresholdStatus.exceeded := fun x => rfl
  refine ⟨?_, ?_, ?_, ?_, ?_, ?_, ?_, ?_⟩
  · rw [he]
    split_ifs with h1 h2 h3 <;>
      first
        | exact iff_of_true rfl (by linarith)
        | exact iff_of_true rfl (by constructor <;> linarith)
        | exact iff_of_false (by simp) (by rintro ⟨ha, hb⟩ <;> linarith)
        | exact iff_of_false (by simp) (by intro h <;> linarith)
  · rw [he]
    split_ifs with h1 h2 h3 <;>
      first
        | exact iff_of_true rfl (by linarith)
        | exact iff_of_true rfl (by constructor <;> linarith)
        | exact iff_of_false (by simp) (by rintro ⟨ha, hb⟩ <;> linarith)
        | exact iff_of_false (by simp) (by intro h <;> linarith)
  · rw [he]
    split_ifs with h1 h2 h3 <;>
      first
        | exact iff_of_true rfl (by linarith)
        | exact iff_of_true rfl (by constructor <;> linarith)
        | exact iff_of_false (by simp) (by rintro ⟨ha, hb⟩ <;> linarith)
        | exact iff_of_false (by simp) (by intro h <;> linarith)
  · rw [he]
    split_ifs with h1 h2 h3 <;>
      first
        | exact iff_of_true rfl (by linarith)
        | exact iff_of_true rfl (by constructor <;> linarith)
        | exact iff_of_false (by simp) (by rintro ⟨ha, hb⟩ <;> linarith)
        | exact iff_of_false (by simp) (by intro h <;> linarith)
  · exact of_decide_eq_true (by with_unfolding_all rfl)
  · exact of_decide_eq_true (by with_unfolding_all rfl)
  · exact of_decide_eq_true (by with_unfolding_all rfl)
  · exact of_decide_eq_true (by with_unfolding_all rfl)

/-! ## C1: growth_vs_previous in the year comparison -/

/-- C1: evaluation of `get_tax_comparison` at the spec's own example.  With
2024 totalling 100 and 2025 totalling 150, the code returns
`growth_vs_previous = null` for 2025 and `-33.33` for 2024: it iterates the
requested years newest first while threading `previous_income`, so each
year's growth is computed against the chronologically NEXT year, not the
previous one.  The schema (`YearlyTaxSummary.growth_vs_previous`, "Growth
percentage vs previous year", with its example giving the newest year a
growth value and the oldest `None`) and the spec both expect 50.0 for 2025
and null for 2024. -/
theorem C1_growth_divergence :
    ((getTaxComparison [decl2024, decl2025] "u" [2024, 2025]).1.map
        fun s => (s.year, s.growth_vs_previous))
      = [(2025, none), (2024, some (-3333 / 100))] ∧
    round2 ((150 - 100) / 100 * 100) = 50 :=
  ⟨by with_unfolding_all rfl, by with_unfolding_all rfl⟩

/-! ## C10: average filing time in the admin statistics -/

/-- C10: evaluation of the `average_filing_time_hours` computation at a
declaration filed this month whose filing took exactly zero hours
(`filed_by_admin_at = payment_date`).  The mean over the filed declarations
is `0`, but the returned field is `None`: the final
`round(avg_filing_time, 2) if avg_filing_time else None` tests Python
truthiness, and `0.0` is falsy.  The claim (and the line above it in the
source, which already maps the no-declarations case to `None`) requires
`null` exactly when nothing was filed this month, so a zero mean must be
reported as `0`. -/
theorem C10_zero_mean_reported_null :
    avgFilingTimeHours [declZeroFilingTime]
        (mkUtc 2025 10 1 0 0 0) (mkUtc 2025 11 1 0 0 0) = some 0 ∧
    reportedAvgFilingTime [declZeroFilingTime]
        (mkUtc 2025 10 1 0 0 0) (mkUtc 2025 11 1 0 0 0) = none :=
  ⟨by with_unfolding_all rfl, by with_unfolding_all rfl⟩

/-! ## C6: mark_declaration_submitted -/

/-- C6 counterexample: `mark_declaration_submitted` on a declaration already
in the terminal status `filed_by_admin` succeeds (returns `True`) and
overwrites the record's status to `submitted` — the method has no status
guard at all, contradicting the claim that it is not allowed on terminal
statuses and does not overwrite. -/
theorem C6_terminal_overwrite_counterexample :
    (markDeclarationSubmitted [declFiledPaid] "u" 2025 10 none 7).1 = true ∧
    ((markDeclarationSubmitted [declFiledPaid] "u" 2025 10 none 7).2.map
      (·.status)) = [Status.submitted] :=
  ⟨by with_unfolding_all rfl, by with_unfolding_all rfl⟩

/-- C6 amended: `mark_declaration_submitted` is an unconditional update.
When a declaration exists for the key it sets `status = submitted`,
`submitted_date` (defaulting to now) and `updated_at` regardless of the
current status — terminal statuses included — and returns true exactly when
the update changed the stored record; when no record matches it returns
false and changes nothing. -/
theorem C6_unconditional_update (store : List Declaration) (uid : String)
    (y m : Int) (sd : Option Int) (now : Int) :
    (findDecl store uid y m = none →
      markDeclarationSubmitted store uid y m sd now = (false, store)) ∧
    (∀ d, findDecl store uid y m = some d →
      markDeclarationSubmitted store uid y m sd now =
        (decide (({ d with
            status := Status.submitted
            submitted_date := some (sd.getD now)
            updated_at := now } : Declaration) ≠ d),
          replaceDecl store uid y m { d with
            status := Status.submitted
            submitted_date := some (sd.getD now)
            updated_at := now })) := by
  constructor
  · intro h
    unfold markDeclarationSubmitted
    rw [h]
  · intro d h
    unfold markDeclarationSubmitted
    rw [h]

/-- C6 witness: the amended theorem applied to the store holding the
already-filed declaration. -/
theorem C6_unconditional_update_witness :
    findDecl [declFiledPaid] "u" 2025 10 = some declFiledPaid ∧
    markDeclarationSubmitted [declFiledPaid] "u" 2025 10 none 7 =
      (decide (({ declFiledPaid with
          status := Status.submitted
          submitted_date := some ((none : Option Int).getD 7)
          updated_at := 7 } : Declaration) ≠ declFiledPaid),
        replaceDecl [declFiledPaid] "u" 2025 10 { declFiledPaid with
          status := Status.submitted
          submitted_date := some ((none : Option Int).getD 7)
          updated_at := 7 }) :=
  ⟨by with_unfolding_all rfl,
    (C6_unconditional_update [declFiledPaid] "u" 2025 10 none 7).2 declFiledPaid
      (by with_unfolding_all rfl)⟩

/-! ## C3: lifecycle transition guards -/

/-- C3 counterexample: requesting the filing service for a declaration that
was already paid for and filed (`status = filed_by_admin`,
`payment_status = paid` — the state every completed admin filing reaches)
fails with the fixed "Declaration already paid for" error, which carries no
status at all, not with an invalid-transition error identifying the current
status as the claim requires. -/
theorem C3_already_paid_counterexample :
    (requestFilingService declFiledPaid 0 "PID").2
        = Except.error TaxError.alreadyPaid ∧
    TaxError.alreadyPaid ≠ TaxError.invalidTransition Status.filed_by_admin :=
  ⟨by with_unfolding_all rfl, by simp⟩

/-- C3 amended: every disallowed lifecycle transition fails and leaves the
stored record unchanged, and the error identifies the current status —
except that `request_filing_service` on an already-paid declaration fails
with a fixed "already paid" error that does not name the status, and its
failure leaves the record unchanged only up to the pending-to-overdue
reclassification its initial get-or-create read may persist. -/
theorem C3_transition_guards (d : Declaration) (now : Int)
    (pid aid confn an corr : String) :
    (d.status ≠ Status.awaiting_payment →
      processMockPayment d now
        = (d, Except.error (TaxError.invalidTransition d.status))) ∧
    (d.status ≠ Status.payment_received →
      adminStartFiling d aid now
        = (d, Except.error (TaxError.invalidTransition d.status))) ∧
    (d.status ≠ Status.in_progress →
      adminCompleteFiling d confn an now
        = (d, Except.error (TaxError.invalidTransition d.status))) ∧
    (d.status ≠ Status.payment_received ∧ d.status ≠ Status.in_progress →
      adminRejectDeclaration d corr an now
        = (d, Except.error (TaxError.invalidTransition d.status))) ∧
    ((refreshDeclaration d now).payment_status = PaymentStatus.paid →
      requestFilingService d now pid
        = (refreshDeclaration d now, Except.error TaxError.alreadyPaid)) ∧
    ((refreshDeclaration d now).payment_status ≠ PaymentStatus.paid ∧
        (refreshDeclaration d now).status ≠ Status.pending ∧
        (refreshDeclaration d now).status ≠ Status.overdue →
      requestFilingService d now pid
        = (refreshDeclaration d now,
            Except.error (TaxError.invalidTransition (refreshDeclaration d now).status))) := by
  refine ⟨?_, ?_, ?_, ?_, ?_, ?_⟩
  · intro h
    unfold processMockPayment
    rw [if_pos h]
  · intro h
    unfold adminStartFiling
    rw [if_pos h]
  · intro h
    unfold adminCompleteFiling
    rw [if_pos h]
  · intro h
    unfold adminRejectDeclaration
    rw [if_pos h]
  · intro h
    unfold requestFilingService
    rw [if_pos h]
  · intro h
    unfold requestFilingService
    rw [if_neg, if_pos ⟨h.2.1, h.2.2⟩]
    exact fun hp => h.1 hp

/-- C3 witness: the guard theorem applied to a `submitted` (terminal,
unpaid) declaration for the four status-named errors, and to the paid,
admin-filed declaration for the "already paid" branch. -/
theorem C3_transition_guards_witness :
    (processMockPayment declSubmitted 9
        = (declSubmitted, Except.error (TaxError.invalidTransition Status.submitted)) ∧
      adminStartFiling declSubmitted "a" 9
        = (declSubmitted, Except.error (TaxError.invalidTransition Status.submitted)) ∧
      adminCompleteFiling declSubmitted "c" "n" 9
        = (declSubmitted, Except.error (TaxError.invalidTransition Status.submitted)) ∧
      adminRejectDeclaration declSubmitted "fix" "n" 9
        = (declSubmitted, Except.error (TaxError.invalidTransition Status.submitted))) ∧
    requestFilingService declFiledPaid 9 "PID"
      = (refreshDeclaration declFiledPaid 9, Except.error TaxError.alreadyPaid) := by
  have h1 := C3_transition_guards declSubmitted 9 "PID" "a" "c" "n" "fix"
  have h2 := C3_transition_guards declFiledPaid 9 "PID" "a" "c" "n" "fix"
  exact ⟨⟨h1.1 (by simp [declSubmitted, baseDecl]),
      h1.2.1 (by simp [declSubmitted, baseDecl]),
      h1.2.2.1 (by simp [declSubmitted, baseDecl]),
      h1.2.2.2.1 ⟨by simp [declSubmitted, baseDecl], by simp [declSubmitted, baseDecl]⟩⟩,
    h2.2.2.2.2.1 (by with_unfolding_all rfl)⟩

/-! ## C8: the first-generation insert race -/

/-- C8 counterexample: in the modelled race (both `find_one`s before either
insert) the loser's `insert_one` fails on the unique index and — the source
having no handler around it — that duplicate-key error is the loser's
outcome: it does not re-read and return the winner's record.  Exactly one
document for the key exists afterwards. -/
theorem C8_loser_errors_counterexample :
    (raceFirstTimeCalls [] "u" 2025 10 5 6).2.1 = CallOutcome.raisedDuplicateKey ∧
    ((raceFirstTimeCalls [] "u" 2025 10 5 6).2.2).length = 1 :=
  ⟨by with_unfolding_all rfl, by with_unfolding_all rfl⟩

/-- C8 amended: under two concurrent first-time calls for the same key, at
most one insert succeeds — the store ends with exactly one document for the
key, the winner's — but the losing caller surfaces the duplicate-key error
to its caller instead of re-reading the winner's record. -/
theorem C8_race_single_document (ledger : List Transaction) (uid : String)
    (y m nowA nowB : Int) :
    (raceFirstTimeCalls ledger uid y m nowA nowB).1
        = CallOutcome.returned (createDeclaration ledger uid y m nowA) ∧
    (raceFirstTimeCalls ledger uid y m nowA nowB).2.1
        = CallOutcome.raisedDuplicateKey ∧
    (raceFirstTimeCalls ledger uid y m nowA nowB).2.2
        = [createDeclaration ledger uid y m nowA] := by
  unfold raceFirstTimeCalls insertOne
  simp [createDeclaration]

/-! ## C9: total_revenue in the admin cross-user listing -/

/-- C9 counterexample: with two paid declarations (50 GEL fee each) in the
filtered set and a one-element page (`limit=1, skip=0`),
`get_all_declarations` reports `total_revenue = 50` — the paid revenue of
the returned page only — while the paid revenue of the entire filtered set
is 100, so the reported total is not independent of the pagination
window. -/
theorem C9_page_local_revenue_counterexample :
    (getAllDeclarations [declPaid1, declPaid2] noFilter 1 0).2.2 = 50 ∧
    ((([declPaid1, declPaid2].filter (matchesFilter noFilter)).filter
        fun d => d.payment_status == PaymentStatus.paid).map
      (·.payment_amount)).sum = 100 ∧
    (getAllDeclarations [declPaid1, declPaid2] noFilter 1 0).2.2
      ≠ ((([declPaid1, declPaid2].filter (matchesFilter noFilter)).filter
          fun d => d.payment_status == PaymentStatus.paid).map
        (·.payment_amount)).sum := by
  refine ⟨by with_unfolding_all rfl, by with_unfolding_all rfl, ?_⟩
  intro h
  rw [show (getAllDeclarations [declPaid1, declPaid2] noFilter 1 0).2.2 = 50 from
    by with_unfolding_all rfl] at h
  rw [show ((([declPaid1, declPaid2].filter (matchesFilter noFilter)).filter
      fun d => d.payment_status == PaymentStatus.paid).map
    (·.payment_amount)).sum = 100 from by with_unfolding_all rfl] at h
  norm_num at h

/-- C9 amended: `total_revenue` is the sum of `payment_amount` over the paid
declarations of the returned page (the filtered set sorted by deadline
descending, then skipped and limited) — not over the entire filtered set —
while `total_count` does cover the whole filtered set and every page entry
belongs to it. -/
theorem C9_revenue_over_page (store : List Declaration) (f : DeclFilter)
    (limit skip : Nat) :
    (getAllDeclarations store f limit skip).2.2
      = (((getAllDeclarations store f limit skip).2.1.filter
          fun d => d.payment_status == PaymentStatus.paid).map
        (·.payment_amount)).sum ∧
    (getAllDeclarations store f limit skip).1
      = (store.filter (matchesFilter f)).length ∧
    (∀ d ∈ (getAllDeclarations store f limit skip).2.1,
      d ∈ store.filter (matchesFilter f)) := by
  refine ⟨rfl, rfl, ?_⟩
  intro d hd
  unfold getAllDeclarations at hd
  have h1 := List.mem_of_mem_take hd
  have h2 := List.mem_of_mem_drop h1
  exact (List.perm_insertionSort _ _).mem_iff.mp h2

/-- C9 witness: the amended theorem instantiated at the two-paid-declaration
store with a one-element page. -/
theorem C9_revenue_over_page_witness :
    declPaid1 ∈ (getAllDeclarations [declPaid1, declPaid2] noFilter 1 0).2.1 ∧
    declPaid1 ∈ [declPaid1, declPaid2].filter (matchesFilter noFilter) := by
  have hpage : (getAllDeclarations [declPaid1, declPaid2] noFilter 1 0).2.1
      = [declPaid1] := by with_unfolding_all rfl
  have hmem : declPaid1 ∈ (getAllDeclarations [declPaid1, declPaid2] noFilter 1 0).2.1 := by
    rw [hpage]
    exact List.mem_singleton_self _
  exact ⟨hmem,
    (C9_revenue_over_page [declPaid1, declPaid2] noFilter 1 0).2.2 declPaid1 hmem⟩

/-! ## C2: first-time declaration creation -/

/-- C2: creating a declaration for a `(user, year, month)` with no existing
record derives `income_gel` as the sum of the user's ledger amounts dated in
`[first day of the month, first day of the next month)`,
`tax_due_gel = income × TAX_RATE`, the transaction count and id snapshot
from the same query, `filing_deadline` at day 15 of the following month
23:59:59 UTC (January of `year+1` for December), and the initial status is
`overdue` exactly when the income is positive and the deadline already lies
in the past, otherwise `pending`. -/
theorem C2_fresh_declaration (store : List Declaration) (ledger : List Transaction)
    (uid : String) (y m now : Int)
    (h : findDecl store uid y m = none) :
    ((getOrCreateDeclaration store ledger uid y m now).1.income_gel
        = ((monthTransactions ledger uid y m).map (·.amount_gel)).sum) ∧
    ((getOrCreateDeclaration store ledger uid y m now).1.tax_due_gel
        = (getOrCreateDeclaration store ledger uid y m now).1.income_gel * TAX_RATE) ∧
    ((getOrCreateDeclaration store ledger uid y m now).1.transaction_count
        = (monthTransactions ledger uid y m).length) ∧
    ((getOrCreateDeclaration store ledger uid y m now).1.transaction_ids
        = (monthTransactions ledger uid y m).map (·.id)) ∧
    ((getOrCreateDeclaration store ledger uid y m now).1.filing_deadline
        = if m = 12 then mkUtc (y + 1) 1 15 23 59 59
          else mkUtc y (m + 1) 15 23 59 59) ∧
    ((getOrCreateDeclaration store ledger uid y m now).1.status = Status.overdue
        ↔ ((getOrCreateDeclaration store ledger uid y m now).1.income_gel > 0 ∧
            (getOrCreateDeclaration store ledger uid y m now).1.filing_deadline < now)) ∧
    ((getOrCreateDeclaration store ledger uid y m now).1.status = Status.overdue ∨
      (getOrCreateDeclaration store ledger uid y m now).1.status = Status.pending) := by
  have hg : (getOrCreateDeclaration store ledger uid y m now).1
      = createDeclaration ledger uid y m now := by
    unfold getOrCreateDeclaration
    rw [h]
  rw [hg]
  have hc : createDeclaration ledger uid y m now =
      { user_id := uid
        year := y
        month := m
        income_gel := ((monthTransactions ledger uid y m).map (·.amount_gel)).sum
        tax_due_gel := ((monthTransactions ledger uid y m).map (·.amount_gel)).sum * TAX_RATE
        transaction_count := (monthTransactions ledger uid y m).length
        transaction_ids := (monthTransactions ledger uid y m).map (·.id)
        status :=
          if mkUtc (if m = 12 then y + 1 else y) (if m = 12 then 1 else m + 1)
              FILING_DAY 23 59 59 < now then
            if ((monthTransactions ledger uid y m).map (·.amount_gel)).sum > 0 then
              Status.overdue
            else Status.pending
          else Status.pending
        filing_deadline :=
          mkUtc (if m = 12 then y + 1 else y) (if m = 12 then 1 else m + 1)
            FILING_DAY 23 59 59
        submitted_date := none
        payment_status := PaymentStatus.unpaid
        payment_amount := 50
        payment_date := none
        mock_payment_id := none
        filing_method := "self_service"
        filed_by_admin_id := none
        filed_by_admin_at := none
        admin_notes := ""
        requires_correction := false
        correction_notes := ""
        auto_generated_at := now
        created_at := now
        updated_at := now } := rfl
  rw [hc]
  set S : ℚ := ((monthTransactions ledger uid y m).map (·.amount_gel)).sum with hS
  set dl : Int :=
    mkUtc (if m = 12 then y + 1 else y) (if m = 12 then 1 else m + 1)
      FILING_DAY 23 59 59 with hdl
  refine ⟨rfl, rfl, rfl, rfl, ?_, ?_, ?_⟩
  · show dl = if m = 12 then mkUtc (y + 1) 1 15 23 59 59
      else mkUtc y (m + 1) 15 23 59 59
    rw [hdl]
    by_cases hm : m = 12 <;> simp [hm, FILING_DAY]
  · show (if dl < now then (if S > 0 then Status.overdue else Status.pending)
        else Status.pending) = Status.overdue ↔ (S > 0 ∧ dl < now)
    by_cases hd : dl < now <;> by_cases hi : S > 0 <;> simp [hd, hi]
  · show (if dl < now then (if S > 0 then Status.overdue else Status.pending)
        else Status.pending) = Status.overdue ∨
      (if dl < now then (if S > 0 then Status.overdue else Status.pending)
        else Status.pending) = Status.pending
    by_cases hd : dl < now <;> by_cases hi : S > 0 <;> simp [hd, hi]
/-- C2 witness: the creation theorem applied to an empty store and the
two-transaction ledger, generating October 2025 on 2025-11-01. -/
theorem C2_fresh_declaration_witness :
    findDecl [] "u" 2025 10 = none ∧
    (((getOrCreateDeclaration [] [txOct, txSep] "u" 2025 10 (mkUtc 2025 11 1 0 0 0)).1.income_gel
        = ((monthTransactions [txOct, txSep] "u" 2025 10).map (·.amount_gel)).sum) ∧
      ((getOrCreateDeclaration [] [txOct, txSep] "u" 2025 10 (mkUtc 2025 11 1 0 0 0)).1.tax_due_gel
        = (getOrCreateDeclaration [] [txOct, txSep] "u" 2025 10 (mkUtc 2025 11 1 0 0 0)).1.income_gel * TAX_RATE) ∧
      ((getOrCreateDeclaration [] [txOct, txSep] "u" 2025 10 (mkUtc 2025 11 1 0 0 0)).1.transaction_count
        = (monthTransactions [txOct, txSep] "u" 2025 10).length) ∧
      ((getOrCreateDeclaration [] [txOct, txSep] "u" 2025 10 (mkUtc 2025 11 1 0 0 0)).1.transaction_ids
        = (monthTransactions [txOct, txSep] "u" 2025 10).map (·.id)) ∧
      ((getOrCreateDeclaration [] [txOct, txSep] "u" 2025 10 (mkUtc 2025 11 1 0 0 0)).1.filing_deadline
        = if (10 : Int) = 12 then mkUtc (2025 + 1) 1 15 23 59 59
          else mkUtc 2025 (10 + 1) 15 23 59 59) ∧
      ((getOrCreateDeclaration [] [txOct, txSep] "u" 2025 10 (mkUtc 2025 11 1 0 0 0)).1.status = Status.overdue
        ↔ ((getOrCreateDeclaration [] [txOct, txSep] "u" 2025 10 (mkUtc 2025 11 1 0 0 0)).1.income_gel > 0 ∧
            (getOrCreateDeclaration [] [txOct, txSep] "u" 2025 10 (mkUtc 2025 11 1 0 0 0)).1.filing_deadline
              < mkUtc 2025 11 1 0 0 0)) ∧
      ((getOrCreateDeclaration [] [txOct, txSep] "u" 2025 10 (mkUtc 2025 11 1 0 0 0)).1.status = Status.overdue ∨
        (getOrCreateDeclaration [] [txOct, txSep] "u" 2025 10 (mkUtc 2025 11 1 0 0 0)).1.status = Status.pending)) :=
  ⟨rfl, C2_fresh_declaration [] [txOct, txSep] "u" 2025 10 (mkUtc 2025 11 1 0 0 0) rfl⟩

/-! ## C4: regeneration for an existing record -/

/-- C4: for an existing declaration record, a further
`_get_or_create_declaration` call leaves `income_gel`, `tax_due_gel` and
`transaction_count` identical (the ledger is not consulted at all), and
mutates at most the status: a `pending` record whose deadline has passed is
returned (and stored) with status `overdue` and no other field changed,
while any other record is returned completely unchanged. -/
theorem C4_existing_regeneration (store : List Declaration)
    (ledger : List Transaction) (uid : String) (y m now : Int) (d : Declaration)
    (h : findDecl store uid y m = some d) :
    ((getOrCreateDeclaration store ledger uid y m now).1.income_gel = d.income_gel) ∧
    ((getOrCreateDeclaration store ledger uid y m now).1.tax_due_gel = d.tax_due_gel) ∧
    ((getOrCreateDeclaration store ledger uid y m now).1.transaction_count
      = d.transaction_count) ∧
    (d.status = Status.pending ∧ d.filing_deadline < now →
      (getOrCreateDeclaration store ledger uid y m now).1
        = { d with status := Status.overdue }) ∧
    (¬(d.status = Status.pending ∧ d.filing_deadline < now) →
      (getOrCreateDeclaration store ledger uid y m now).1 = d) ∧
    ((getOrCreateDeclaration store ledger uid y m now).2
      = replaceDecl store uid y m (getOrCreateDeclaration store ledger uid y m now).1) := by
  have hg : getOrCreateDeclaration store ledger uid y m now
      = (refreshDeclaration d now, replaceDecl store uid y m (refreshDeclaration d now)) := by
    unfold getOrCreateDeclaration
    rw [h]
  rw [hg]
  unfold refreshDeclaration
  by_cases hc : d.status = Status.pending ∧ d.filing_deadline < now
  · rw [if_pos hc]
    exact ⟨rfl, rfl, rfl, fun _ => rfl, fun hn => absurd hc hn, rfl⟩
  · rw [if_neg hc]
    exact ⟨rfl, rfl, rfl, fun hcc => absurd hcc hc, fun _ => rfl, rfl⟩
/-- C4 witness: the regeneration theorem applied to a store holding the
pending October 2025 declaration, read again on 2025-12-01 (deadline
passed). -/
theorem C4_existing_regeneration_witness :
    findDecl [baseDecl] "u" 2025 10 = some baseDecl ∧
    (((getOrCreateDeclaration [baseDecl] [] "u" 2025 10 (mkUtc 2025 12 1 0 0 0)).1.income_gel
        = baseDecl.income_gel) ∧
      ((getOrCreateDeclaration [baseDecl] [] "u" 2025 10 (mkUtc 2025 12 1 0 0 0)).1.tax_due_gel
        = baseDecl.tax_due_gel) ∧
      ((getOrCreateDeclaration [baseDecl] [] "u" 2025 10 (mkUtc 2025 12 1 0 0 0)).1.transaction_count
        = baseDecl.transaction_count) ∧
      (baseDecl.status = Status.pending ∧
          baseDecl.filing_deadline < mkUtc 2025 12 1 0 0 0 →
        (getOrCreateDeclaration [baseDecl] [] "u" 2025 10 (mkUtc 2025 12 1 0 0 0)).1
          = { baseDecl with status := Status.overdue }) ∧
      (¬(baseDecl.status = Status.pending ∧
          baseDecl.filing_deadline < mkUtc 2025 12 1 0 0 0) →
        (getOrCreateDeclaration [baseDecl] [] "u" 2025 10 (mkUtc 2025 12 1 0 0 0)).1
          = baseDecl) ∧
      ((getOrCreateDeclaration [baseDecl] [] "u" 2025 10 (mkUtc 2025 12 1 0 0 0)).2
        = replaceDecl [baseDecl] "u" 2025 10
            (getOrCreateDeclaration [baseDecl] [] "u" 2025 10 (mkUtc 2025 12 1 0 0 0)).1)) := by
  have h : findDecl [baseDecl] "u" 2025 10 = some baseDecl := by
    with_unfolding_all rfl
  have hthm := C4_existing_regeneration [baseDecl] [] "u" 2025 10
    (mkUtc 2025 12 1 0 0 0) baseDecl h
  exact ⟨h, hthm.1, hthm.2.1, hthm.2.2.1, hthm.2.2.2.1,
    hthm.2.2.2.2.1, hthm.2.2.2.2.2⟩

/-! ## C7: deadline-reminder insights

Helper lemmas about `filter`, `filterMap` and sorting permutations, used to
track a single declaration's contribution through the insight pipeline. -/

/-- Filtering after a `filterMap` equals a `filterMap` whose function keeps
only survivors of the filter. -/
lemma filter_filterMap_eq {α β : Type} (f : α → Option β) (p : β → Bool)
    (l : List α) :
    (l.filterMap f).filter p
      = l.filterMap fun a => (f a).bind fun b => if p b then some b else none := by
  induction l with
  | nil => rfl
  | cons a l ih =>
      cases hfa : f a with
      | none => simp [List.filterMap_cons, hfa, ih]
      | some b =>
          by_cases hpb : p b <;>
            simp [List.filterMap_cons, hfa, List.filter_cons, hpb, ih]

/-- Over a duplicate-free list, a `filterMap` whose function returns `none`
everywhere except possibly at one designated member reduces to that member's
image. -/
lemma filterMap_filter_key {α β : Type} (q : α → Bool) (g : α → Option β)
    (d : α) :
    ∀ store : List α, store.Nodup → d ∈ store →
      (∀ e ∈ store, e ≠ d → q e = true → g e = none) → q d = true →
      (store.filter q).filterMap g = (g d).toList := by
  intro store
  induction store with
  | nil =>
      intro _ hmem _ _
      cases hmem
  | cons a l ih =>
      intro hnd hmem hother hq
      rw [List.nodup_cons] at hnd
      rcases List.mem_cons.mp hmem with heq | hml
      · subst heq
        rw [List.filter_cons, if_pos hq, List.filterMap_cons]
        have hrest : (l.filter q).filterMap g = [] := by
          rw [List.filterMap_eq_nil]
          intro e he
          have hel : e ∈ l := List.mem_of_mem_filter he
          have hqe : q e = true := List.of_mem_filter he
          exact hother e (List.mem_cons_of_mem _ hel)
            (fun h => hnd.1 (h ▸ hel)) hqe
        cases hgd : g d with
        | none => simp [hrest]
        | some b => simp [hrest]
      · have hne : a ≠ d := fun h => hnd.1 (h ▸ hml)
        have hih := ih hnd.2 hml
          (fun e he hed hqe => hother e (List.mem_cons_of_mem _ he) hed hqe) hq
        by_cases hqa : q a = true
        · rw [List.filter_cons, if_pos hqa, List.filterMap_cons,
            hother a (List.mem_cons_self a l) hne hqa, hih]
        · rw [List.filter_cons, if_neg hqa, hih]

/-- Overdue-compliance alerts never carry a declaration reference. -/
lemma overdueCompliance_ref_none (store : List Declaration) (uid : String)
    (now : Int) :
    ∀ i ∈ overdueComplianceInsights store uid now, i.ref = none := by
  intro i hi
  simp only [overdueComplianceInsights] at hi
  split at hi <;> simp_all

/-- Threshold warnings never carry a declaration reference. -/
lemma threshold_ref_none (ledger : List Transaction) (uid : String) (y : Int) :
    ∀ i ∈ thresholdInsights ledger uid y, i.ref = none := by
  intro i hi
  simp only [thresholdInsights] at hi
  split_ifs at hi <;> simp_all

/-- Income spike/drop alerts never carry a declaration reference. -/
lemma incomeChange_ref_none (store : List Declaration) (uid : String)
    (now : Int) :
    ∀ i ∈ incomeChangeInsights store uid now, i.ref = none := by
  intro i hi
  simp only [incomeChangeInsights] at hi
  repeat' split at hi
  all_goals simp_all

/-- The optimization tip never carries a declaration reference. -/
lemma optimizationTip_ref_none (ledger : List Transaction) (uid : String)
    (y : Int) :
    ∀ i ∈ optimizationTipInsights ledger uid y, i.ref = none := by
  intro i hi
  simp only [optimizationTipInsights] at hi
  split at hi <;> simp_all

/-- Whether an insight is the deadline reminder for the declaration with the
given `(year, month)` key. -/
def isReminderFor (key : Int × Int) (i : Insight) : Bool :=
  i.itype == InsightType.declaration_reminder && i.ref == some key

/-- Insights carrying no declaration reference never pass the reminder
filter. -/
lemma filter_isReminderFor_of_ref_none (key : Int × Int) (l : List Insight)
    (hl : ∀ i ∈ l, i.ref = none) : l.filter (isReminderFor key) = [] := by
  rw [List.filter_eq_nil]
  intro i hil
  unfold isReminderFor
  rw [hl i hil,
    show ((none : Option (Int × Int)) == some key) = false from rfl,
    Bool.and_false]
  simp

/-- C7: for every pending declaration of the user whose filing deadline has
not passed, `get_tax_insights` emits exactly one deadline reminder when at
most 7 days remain — of severity `critical` at ≤ 1 day, `high` at ≤ 3 days,
`medium` at ≤ 7 days — and none at all when more than 7 days remain.  The
hypotheses mirror the store's unique `(user, year, month)` index. -/
theorem C7_deadline_reminders (store : List Declaration)
    (ledger : List Transaction) (uid : String) (now : Int) (d : Declaration)
    (hmem : d ∈ store) (hnd : store.Nodup) (huid : d.user_id = uid)
    (hkey : ∀ e ∈ store, e.user_id = d.user_id → e.year = d.year →
      e.month = d.month → e = d)
    (hst : d.status = Status.pending) (hfut : now ≤ d.filing_deadline) :
    (getTaxInsights store ledger uid now).filter
        (isReminderFor (d.year, d.month))
      = (if Int.fdiv (d.filing_deadline - now) 86400 ≤ 1 then
          [⟨InsightType.declaration_reminder, InsightSeverity.critical,
            some (d.year, d.month), true⟩]
        else if Int.fdiv (d.filing_deadline - now) 86400 ≤ 3 then
          [⟨InsightType.declaration_reminder, InsightSeverity.high,
            some (d.year, d.month), true⟩]
        else if Int.fdiv (d.filing_deadline - now) 86400 ≤ 7 then
          [⟨InsightType.declaration_reminder, InsightSeverity.medium,
            some (d.year, d.month), true⟩]
        else []) := by
  have hq : pendingQuery uid now d = true := by
    unfold pendingQuery
    rw [huid, hst]
    simp [hfut]
  have hrefbeq_self : ((d.year, d.month) == (d.year, d.month)) = true := by
    simp
  -- the filterMap function obtained by pushing the reminder filter inside
  have hother : ∀ e ∈ store, e ≠ d → pendingQuery uid now e = true →
      ((reminderOf now e).bind fun b =>
        if isReminderFor (d.year, d.month) b then some b else none) = none := by
    intro e hes hne hqe
    have heu : e.user_id = uid := by
      unfold pendingQuery at hqe
      simp only [Bool.and_eq_true, beq_iff_eq, decide_eq_true_eq] at hqe
      exact hqe.1.1
    have hkey2 : ¬(e.year = d.year ∧ e.month = d.month) := by
      intro hcon
      exact hne (hkey e hes (heu.trans huid.symm) hcon.1 hcon.2)
    have hrefbeq : ((e.year, e.month) == (d.year, d.month)) = false := by
      apply beq_eq_false_iff_ne.mpr
      intro hpair
      exact hkey2 ⟨congrArg Prod.fst hpair, congrArg Prod.snd hpair⟩
    have hrem : ∀ b, reminderOf now e = some b →
        isReminderFor (d.year, d.month) b = false := by
      intro b hb
      unfold reminderOf at hb
      split_ifs at hb <;>
        first
          | (injection hb with hb2
             subst hb2
             unfold isReminderFor
             rw [show ((some (e.year, e.month) : Option (Int × Int))
                   == some (d.year, d.month))
                 = ((e.year, e.month) == (d.year, d.month)) from rfl,
               hrefbeq, Bool.and_false])
    cases hr : reminderOf now e with
    | none => rfl
    | some b =>
        show (if isReminderFor (d.year, d.month) b then some b else none) = none
        rw [hrem b hr]
        simp
  -- step 1: strip the severity sort
  have hperm1 : List.Perm
      ((getTaxInsights store ledger uid now).filter
        (isReminderFor (d.year, d.month)))
      ((upcomingDeadlineInsights store uid now ++
          overdueComplianceInsights store uid now ++
          thresholdInsights ledger uid (tsYear now) ++
          incomeChangeInsights store uid now ++
          optimizationTipInsights ledger uid (tsYear now)).filter
          (isReminderFor (d.year, d.month))) :=
    (List.perm_insertionSort _ _).filter _
  -- step 2: the four non-reminder sections contribute nothing
  have hzero : (upcomingDeadlineInsights store uid now ++
        overdueComplianceInsights store uid now ++
        thresholdInsights ledger uid (tsYear now) ++
        incomeChangeInsights store uid now ++
        optimizationTipInsights ledger uid (tsYear now)).filter
        (isReminderFor (d.year, d.month))
      = (upcomingDeadlineInsights store uid now).filter
          (isReminderFor (d.year, d.month)) := by
    simp only [List.filter_append,
      filter_isReminderFor_of_ref_none _ _ (overdueCompliance_ref_none store uid now),
      filter_isReminderFor_of_ref_none _ _ (threshold_ref_none ledger uid (tsYear now)),
      filter_isReminderFor_of_ref_none _ _ (incomeChange_ref_none store uid now),
      filter_isReminderFor_of_ref_none _ _ (optimizationTip_ref_none ledger uid (tsYear now)),
      List.append_nil]
  -- step 3: push the filter into the reminder filterMap, strip the
  -- deadline sort, and collapse to the single key-matching declaration
  have hperm2 : List.Perm
      ((upcomingDeadlineInsights store uid now).filter
        (isReminderFor (d.year, d.month)))
      ((store.filter (pendingQuery uid now)).filterMap
          (fun e => (reminderOf now e).bind fun b =>
            if isReminderFor (d.year, d.month) b then some b else none)) := by
    unfold upcomingDeadlineInsights
    rw [filter_filterMap_eq]
    exact List.Perm.filterMap
      (fun e => (reminderOf now e).bind fun b =>
        if isReminderFor (d.year, d.month) b then some b else none)
      (List.perm_insertionSort
        (fun a b : Declaration => a.filing_deadline ≤ b.filing_deadline)
        (store.filter (pendingQuery uid now)))
  have hcollapse : (store.filter (pendingQuery uid now)).filterMap
        (fun e => (reminderOf now e).bind fun b =>
          if isReminderFor (d.year, d.month) b then some b else none)
      = ((reminderOf now d).bind fun b =>
          if isReminderFor (d.year, d.month) b then some b else none).toList :=
    filterMap_filter_key (pendingQuery uid now) _ d store hnd hmem hother hq
  -- step 4: the designated declaration's own reminder passes the filter
  have hgd : ((reminderOf now d).bind fun b =>
        if isReminderFor (d.year, d.month) b then some b else none)
      = reminderOf now d := by
    cases hr : reminderOf now d with
    | none => rfl
    | some b =>
        have hpass : isReminderFor (d.year, d.month) b = true := by
          unfold reminderOf at hr
          split_ifs at hr <;>
            first
              | (injection hr with hr2
                 subst hr2
                 unfold isReminderFor
                 rw [show ((some (d.year, d.month) : Option (Int × Int))
                       == some (d.year, d.month))
                     = ((d.year, d.month) == (d.year, d.month)) from rfl,
                   hrefbeq_self]
                 simp)
              | simp at hr
        show (if isReminderFor (d.year, d.month) b then some b else none) = some b
        rw [hpass]
        simp
  have hperm : List.Perm
      ((getTaxInsights store ledger uid now).filter
        (isReminderFor (d.year, d.month)))
      ((reminderOf now d).toList) := by
    have hz := hzero ▸ hperm1
    have hcg := hcollapse.trans (congrArg Option.toList hgd)
    exact (hz.trans hperm2).trans (hcg ▸ List.Perm.refl _)
  have htarget : (reminderOf now d).toList
      = (if Int.fdiv (d.filing_deadline - now) 86400 ≤ 1 then
          [⟨InsightType.declaration_reminder, InsightSeverity.critical,
            some (d.year, d.month), true⟩]
        else if Int.fdiv (d.filing_deadline - now) 86400 ≤ 3 then
          [⟨InsightType.declaration_reminder, InsightSeverity.high,
            some (d.year, d.month), true⟩]
        else if Int.fdiv (d.filing_deadline - now) 86400 ≤ 7 then
          [⟨InsightType.declaration_reminder, InsightSeverity.medium,
            some (d.year, d.month), true⟩]
        else []) := by
    unfold reminderOf
    split_ifs <;> rfl
  rw [← htarget]
  cases hr : reminderOf now d with
  | none =>
      rw [hr] at hperm
      exact hperm.eq_nil
  | some b =>
      rw [hr] at hperm
      exact List.perm_singleton.mp hperm

/-- C7 witness: the reminder theorem applied to a store holding one pending
declaration due exactly one day after the reference instant. -/
theorem C7_deadline_reminders_witness :
    nowNov5 ≤ declDueIn1.filing_deadline ∧
    ((getTaxInsights [declDueIn1] [] "u" nowNov5).filter
        (isReminderFor (declDueIn1.year, declDueIn1.month))
      = (if Int.fdiv (declDueIn1.filing_deadline - nowNov5) 86400 ≤ 1 then
          [⟨InsightType.declaration_reminder, InsightSeverity.critical,
            some (declDueIn1.year, declDueIn1.month), true⟩]
        else if Int.fdiv (declDueIn1.filing_deadline - nowNov5) 86400 ≤ 3 then
          [⟨InsightType.declaration_reminder, InsightSeverity.high,
            some (declDueIn1.year, declDueIn1.month), true⟩]
        else if Int.fdiv (declDueIn1.filing_deadline - nowNov5) 86400 ≤ 7 then
          [⟨InsightType.declaration_reminder, InsightSeverity.medium,
            some (declDueIn1.year, declDueIn1.month), true⟩]
        else [])) :=
  ⟨of_decide_eq_true (by with_unfolding_all rfl),
    C7_deadline_reminders [declDueIn1] [] "u" nowNov5 declDueIn1
      (List.mem_singleton_self _) (List.nodup_singleton _) rfl
      (fun e he _ _ _ => by rwa [List.mem_singleton] at he) rfl
      (of_decide_eq_true (by with_unfolding_all rfl))⟩

end TaxStats
